import Mathlib

/-!
Shallow embedding of the signal-detection and backtest-evaluation engine of
the realFx1h repository.  Prices are modelled as exact rationals (the Python
code computes with IEEE doubles on decimal quotes; every claim below is about
exact decimal inputs, where the two agree on all comparisons involved).
Where pandas produces NaN, the embedding uses Option, with none standing for
NaN; the comment on each definition records the pandas behaviour it mirrors.
-/

set_option allowUnsafeReducibility true in
attribute [semireducible] Rat.add Rat.sub Rat.mul Rat.inv Rat.ofScientific

namespace RealFx

/-- One OHLC candle, the row type of the DataFrames consumed by the engine
(src/backtest.py fetch_5min builds columns timestamp, open, high, low, close). -/
structure Candle where
  timestamp : ℕ
  open_ : ℚ
  high : ℚ
  low : ℚ
  close : ℚ
deriving DecidableEq, Inhabited

/-- The configuration keys read by get_signal in src/patterns.py:
cfg[filters][min_touches], cfg[filters][touch_window_pips],
cfg[filters][rsi_oversold], cfg[filters][rsi_overbought]. -/
structure Cfg where
  min_touches : ℕ
  touch_window_pips : ℚ
  rsi_oversold : ℚ
  rsi_overbought : ℚ
deriving DecidableEq, Inhabited

/-- Does the character list start with J, P, Y?  Helper for the Python
substring membership test. -/
def swJPY : List Char → Bool
  | 'J' :: 'P' :: 'Y' :: _ => true
  | _ => false

/-- Does the string contain the substring JPY, scanning left to right over
its characters? -/
def containsJPY : List Char → Bool
  | [] => false
  | c :: rest => swJPY (c :: rest) || containsJPY rest

/-- pip_size from src/patterns.py: 0.01 when the symbol contains the
substring JPY, else 0.0001. -/
def pip_size (symbol : String) : ℚ :=
  if containsJPY symbol.data then 1 / 100 else 1 / 10000

/-- hammer from src/patterns.py (also src/setup1/pattern_file1.py): on the
last candle of the slice, body must be nonzero, the lower shadow strictly
exceeds twice the body and the upper shadow is strictly below half the body. -/
def hammer (df : List Candle) : Bool :=
  if df.length < 1 then false
  else
    let last := df.getLastD default
    let body := |last.close - last.open_|
    if body = 0 then false
    else
      let lower_shadow := min last.close last.open_ - last.low
      let upper_shadow := last.high - max last.close last.open_
      decide (lower_shadow > 2 * body) && decide (upper_shadow < body * (1 / 2))

/-- shooting_star from src/patterns.py: mirror image of hammer. -/
def shooting_star (df : List Candle) : Bool :=
  if df.length < 1 then false
  else
    let last := df.getLastD default
    let body := |last.close - last.open_|
    if body = 0 then false
    else
      let upper_shadow := last.high - max last.close last.open_
      let lower_shadow := min last.close last.open_ - last.low
      decide (upper_shadow > 2 * body) && decide (lower_shadow < body * (1 / 2))

/-- hammer from src/pattern.py, the alternate pipeline variant: no zero-body
guard and the looser threshold upper_shadow < body (instead of half the body). -/
def hammerAlt (df : List Candle) : Bool :=
  if df.length < 1 then false
  else
    let last := df.getLastD default
    let body := |last.close - last.open_|
    let lower_shadow := min last.close last.open_ - last.low
    let upper_shadow := last.high - max last.close last.open_
    decide (lower_shadow > 2 * body) && decide (upper_shadow < body)

/-- close.diff() of pandas: entry 0 is NaN (none), entry i (i at least 1) is
closes[i] - closes[i-1]. -/
def deltas (closes : List ℚ) : List (Option ℚ) :=
  none :: (closes.tail.zip closes).map (fun p => some (p.1 - p.2))

/-- delta.where(delta > 0, 0) of pandas: keep delta where it is positive,
otherwise 0.  A NaN compares false against 0, so the undefined first
difference is masked to 0, not propagated. -/
def gains (closes : List ℚ) : List ℚ :=
  (deltas closes).map (fun d =>
    match d with
    | some x => if 0 < x then x else 0
    | none => 0)

/-- -delta.where(delta < 0, 0) of pandas; the NaN at index 0 is likewise
masked to 0. -/
def losses (closes : List ℚ) : List ℚ :=
  (deltas closes).map (fun d =>
    match d with
    | some x => if x < 0 then -x else 0
    | none => 0)

/-- rolling(period).mean() evaluated at the last index, where the window is
full (callers establish period at most the length). -/
def rollingMeanLast (xs : List ℚ) (period : ℕ) : ℚ :=
  (xs.drop (xs.length - period)).sum / (period : ℚ)

/-- rsi from src/patterns.py (identical in src/pattern.py and
src/setup1/pattern_file1.py): neutral 50 below period candles, else Wilder
RSI with simple rolling means of gains and losses at the last index.
The float pipeline 100 - 100/(1 + gain/loss) is mirrored case by case:
loss positive gives the ordinary value; loss 0 with gain positive gives
rs = +infinity hence rsi 100; gain and loss both 0 give 0/0 = NaN, modelled
as none.  No other NaN arises: the masked gain and loss series are
everywhere numeric, so the full-width rolling means at the last index are
numeric whenever the length is at least period. -/
def rsi (df : List Candle) (period : ℕ) : Option ℚ :=
  if df.length < period then some 50
  else
    let closes := df.map (fun c => c.close)
    let g := rollingMeanLast (gains closes) period
    let l := rollingMeanLast (losses closes) period
    if 0 < l then some (100 - 100 / (1 + g / l))
    else if 0 < g then some 100
    else none

/-- rsi_val < threshold in the float world: false when rsi_val is NaN. -/
def rsiLt (r : Option ℚ) (t : ℚ) : Bool :=
  match r with
  | some v => decide (v < t)
  | none => false

/-- rsi_val > threshold in the float world: false when rsi_val is NaN. -/
def rsiGt (r : Option ℚ) (t : ℚ) : Bool :=
  match r with
  | some v => decide (t < v)
  | none => false

/-- argrelextrema(data, cmp, order=5) of scipy with the default clip mode:
index i is kept iff cmp relates data[i] to the neighbours at every shift
1..5 on both sides, indices clipped into range (truncated subtraction clips
at 0, min clips at length - 1).  A clipped endpoint is compared against
itself, so a strict comparator never keeps the two ends. -/
def relExtremaIdx (cmp : ℚ → ℚ → Bool) (xs : List ℚ) : List ℕ :=
  (List.range xs.length).filter (fun i =>
    (List.range 5).all (fun k =>
      cmp (xs.getD i 0) (xs.getD (min (i + (k + 1)) (xs.length - 1)) 0) &&
      cmp (xs.getD i 0) (xs.getD (i - (k + 1)) 0)))

/-- np.mean of a nonempty python list. -/
def listMean (xs : List ℚ) : ℚ := xs.sum / (xs.length : ℚ)

/-- The left-to-right sweep inside cluster_levels (src/patterns.py lines
34-42): cur is the current cluster, always nonempty; a price joins the
cluster iff it lies within pips of the last-added member, otherwise the
cluster closes by emitting its mean.  The trailing cluster is emitted at
the end of the sweep. -/
def clusterSweep (pips : ℚ) (cur : List ℚ) : List ℚ → List ℚ
  | [] => [listMean cur]
  | p :: rest =>
    if p - cur.getLastD 0 ≤ pips then clusterSweep pips (cur ++ [p]) rest
    else listMean cur :: clusterSweep pips [p] rest

/-- cluster_levels from src/patterns.py (nested inside
find_support_resistance_levels): empty input gives an empty output, else
sort ascending and sweep with the first element opening the first cluster. -/
def cluster_levels (pips : ℚ) (levels : List ℚ) : List ℚ :=
  match List.insertionSort (fun a b : ℚ => a ≤ b) levels with
  | [] => []
  | x :: rest => clusterSweep pips [x] rest

/-- find_support_resistance_levels from src/patterns.py: below lookback
candles return two empty level arrays; otherwise work on the trailing
lookback candles, take local minima of the lows and local maxima of the
highs (argrelextrema, order 5) and cluster each with tolerance
pip_size(symbol) * window. -/
def find_support_resistance_levels (df : List Candle) (symbol : String)
    (window : ℚ) (lookback : ℕ) : List ℚ × List ℚ :=
  if df.length < lookback then ([], [])
  else
    let pips := pip_size symbol * window
    let data := df.drop (df.length - lookback)
    let lows := data.map (fun c => c.low)
    let highs := data.map (fun c => c.high)
    let minimaIdx := relExtremaIdx (fun a b => decide (a < b)) lows
    let maximaIdx := relExtremaIdx (fun a b => decide (b < a)) highs
    let support_levels := minimaIdx.map (fun i => lows.getD i 0)
    let resistance_levels := maximaIdx.map (fun i => highs.getD i 0)
    (cluster_levels pips support_levels, cluster_levels pips resistance_levels)

/-- triple_touch from src/patterns.py: below lookback candles return
(false, false); otherwise the last candle touches resistance (support) if
its high (low) is within pips of some clustered level, and when any touch
exists, every level matched by the last candle contributes the number of
candles in the trailing window (excluding the last candle) whose high or
low comes within pips of it; each flag is the corresponding count reaching
touches.  Returns (touches_resistance, touches_support). -/
def triple_touch (df : List Candle) (symbol : String) (touches : ℕ)
    (window : ℚ) (lookback : ℕ) : Bool × Bool :=
  if df.length < lookback then (false, false)
  else
    let sr := find_support_resistance_levels df symbol window lookback
    let support_levels := sr.1
    let resistance_levels := sr.2
    let current := df.getLastD default
    let pips := pip_size symbol * window
    let touches_resistance :=
      resistance_levels.any (fun level => decide (|current.high - level| ≤ pips))
    let touches_support :=
      support_levels.any (fun level => decide (|current.low - level| ≤ pips))
    if touches_resistance || touches_support then
      let recent :=
        if lookback < df.length then (df.drop (df.length - lookback)).dropLast
        else df.dropLast
      let resistance_touch_count :=
        if touches_resistance then
          (resistance_levels.map (fun level =>
            if |current.high - level| ≤ pips then
              (recent.filter (fun c =>
                decide (|c.high - level| ≤ pips) || decide (|c.low - level| ≤ pips))).length
            else 0)).sum
        else 0
      let support_touch_count :=
        if touches_support then
          (support_levels.map (fun level =>
            if |current.low - level| ≤ pips then
              (recent.filter (fun c =>
                decide (|c.low - level| ≤ pips) || decide (|c.high - level| ≤ pips))).length
            else 0)).sum
        else 0
      (decide (touches ≤ resistance_touch_count), decide (touches ≤ support_touch_count))
    else (false, false)

/-- The conditions_info dictionary built by get_signal in src/patterns.py. -/
structure CondInfo where
  candle_a_touch_h : Bool
  candle_a_touch_l : Bool
  candle_a_rsi : Option ℚ
  candle_a_hammer : Bool
  candle_a_shooting_star : Bool
  candle_b_bullish : Bool
  candle_b_bearish : Bool
  triggered_pattern : Option String
deriving DecidableEq, Inhabited

/-- candle_b_bullish: close strictly above open on the last candle of the
confirmation slice. -/
def directionBull (candleB : List Candle) : Bool :=
  decide ((candleB.getLastD default).open_ < (candleB.getLastD default).close)

/-- candle_b_bearish: close strictly below open on the last candle of the
confirmation slice. -/
def directionBear (candleB : List Candle) : Bool :=
  decide ((candleB.getLastD default).close < (candleB.getLastD default).open_)

/-- The CALL guard of get_signal in src/patterns.py: touch_l and hammer on
the setup slice, rsi below oversold, bullish confirmation candle. -/
def callCond (candleA candleB : List Candle) (symbol : String) (cfg : Cfg) : Bool :=
  (triple_touch candleA symbol cfg.min_touches cfg.touch_window_pips 100).2 &&
  hammer candleA &&
  rsiLt (rsi candleA 14) cfg.rsi_oversold &&
  directionBull candleB

/-- The PUT guard of get_signal in src/patterns.py: touch_h and shooting
star on the setup slice, rsi above overbought, bearish confirmation candle. -/
def putCond (candleA candleB : List Candle) (symbol : String) (cfg : Cfg) : Bool :=
  (triple_touch candleA symbol cfg.min_touches cfg.touch_window_pips 100).1 &&
  shooting_star candleA &&
  rsiGt (rsi candleA 14) cfg.rsi_overbought &&
  directionBear candleB

/-- The conditions_info value before a pattern triggers: fields in the order
of the Python dict, triggered_pattern filled by the caller. -/
def condInfoOf (candleA candleB : List Candle) (symbol : String) (cfg : Cfg)
    (trig : Option String) : CondInfo :=
  let t := triple_touch candleA symbol cfg.min_touches cfg.touch_window_pips 100
  ⟨t.1, t.2, rsi candleA 14, hammer candleA, shooting_star candleA,
   directionBull candleB, directionBear candleB, trig⟩

/-- The body of get_signal after the slices are fixed: CALL is evaluated
before PUT, and the returned conditions carry the triggered pattern name. -/
def gsCore (candleA candleB : List Candle) (symbol : String) (cfg : Cfg) :
    Option String × Option CondInfo :=
  if callCond candleA candleB symbol cfg then
    (some "CALL", some (condInfoOf candleA candleB symbol cfg (some "Hammer")))
  else if putCond candleA candleB symbol cfg then
    (some "PUT", some (condInfoOf candleA candleB symbol cfg (some "Shooting Star")))
  else (none, some (condInfoOf candleA candleB symbol cfg none))

/-- get_signal from src/patterns.py (identical in
src/setup1/pattern_file1.py), historical branch: an index outside
[1, length) yields (None, empty dict), modelled as (none, none); otherwise
the setup slice is the candles strictly before historical_index (Candle A
last) and the confirmation slice additionally includes the candle at
historical_index (Candle B last). -/
def get_signal (df : List Candle) (symbol : String) (cfg : Cfg)
    (historical_index : ℕ) : Option String × Option CondInfo :=
  if historical_index < 1 ∨ df.length ≤ historical_index then (none, none)
  else
    gsCore (df.take historical_index) (df.take (historical_index + 1)) symbol cfg

/-- check_setup_result from src/backtest.py, the 15-minute pipeline: without
the expiry candle (signal_index + 4 past the end) the outcome is
UNDETERMINED; otherwise entry is the open of Candle C (index + 1) and expiry
the open of Candle F (index + 4), a CALL wins iff expiry is strictly above
entry, a PUT wins iff strictly below, anything else (equality included) is a
LOSS; a signal that is neither CALL nor PUT falls through to UNDETERMINED.
The unused cfg parameter of the source is dropped.  Both index reads are in
bounds here, so the total getD faithfully models iloc. -/
def check_setup_result (df : List Candle) (signal_index : ℕ) (signal : String) : String :=
  if df.length ≤ signal_index + 4 then "UNDETERMINED"
  else
    let entry_price := (df.getD (signal_index + 1) default).open_
    let expiry_price := (df.getD (signal_index + 4) default).open_
    if signal = "CALL" then (if expiry_price > entry_price then "WIN" else "LOSS")
    else if signal = "PUT" then (if expiry_price < entry_price then "WIN" else "LOSS")
    else "UNDETERMINED"

/-- check_setup_result from src/test_script.py, the 10-minute pipeline:
identical to the 15-minute one except expiry is the open of Candle D
(index + 2). -/
def check_setup_result_10 (df : List Candle) (signal_index : ℕ) (signal : String) : String :=
  if df.length ≤ signal_index + 2 then "UNDETERMINED"
  else
    let entry_price := (df.getD (signal_index + 1) default).open_
    let expiry_price := (df.getD (signal_index + 2) default).open_
    if signal = "CALL" then (if expiry_price > entry_price then "WIN" else "LOSS")
    else if signal = "PUT" then (if expiry_price < entry_price then "WIN" else "LOSS")
    else "UNDETERMINED"

/-- The setup_info dictionary appended by analyze_setups in src/backtest.py. -/
structure SetupRecord where
  timestamp : ℕ
  symbol : String
  signal : String
  result : String
  entry_price : ℚ
  expiry_price : ℚ
  conditions : Option CondInfo
deriving DecidableEq, Inhabited

/-- The body of the scan loop of analyze_setups in src/backtest.py over the
remaining indices.  At a fired index the record construction reads
df.iloc[i + 1] and df.iloc[i + 4] unconditionally; an out-of-range iloc read
raises IndexError, which aborts the whole call and is modelled by none (the
checked get? is none exactly when the index is past the end).  The outcome
result is computed before those reads, exactly as in the source. -/
def analyzeLoop (df : List Candle) (symbol : String) (cfg : Cfg) :
    List ℕ → Option (List SetupRecord)
  | [] => some []
  | i :: rest =>
    match get_signal df symbol cfg i with
    | (none, _) => analyzeLoop df symbol cfg rest
    | (some sig, conditions) =>
      let result := check_setup_result df i sig
      match df.get? (i + 1), df.get? (i + 4) with
      | some candleC, some candleF =>
        (analyzeLoop df symbol cfg rest).map (fun rs =>
          ⟨(df.getD i default).timestamp, symbol, sig, result,
           candleC.open_, candleF.open_, conditions⟩ :: rs)
      | _, _ => none

/-- analyze_setups from src/backtest.py: scan indices 51 .. length - 1 in
order; none models the run dying with an uncaught IndexError. -/
def analyze_setups (df : List Candle) (symbol : String) (cfg : Cfg) :
    Option (List SetupRecord) :=
  analyzeLoop df symbol cfg (List.range' 51 (df.length - 51))

/-- The statistics dictionary returned by calculate_stats in src/backtest.py. -/
structure Stats where
  total_setups : ℕ
  win_rate : ℚ
  wins : ℕ
  losses : ℕ
  undetermined : ℕ
deriving DecidableEq, Inhabited

/-- calculate_stats from src/backtest.py: an empty record list short-circuits
to all zeros; otherwise count results by value, and the win rate is
wins / (wins + losses) * 100 when any record was determined, else 0. -/
def calculate_stats (setups : List SetupRecord) : Stats :=
  if setups.isEmpty then ⟨0, 0, 0, 0, 0⟩
  else
    let wins := (setups.filter (fun s => s.result == "WIN")).length
    let losses := (setups.filter (fun s => s.result == "LOSS")).length
    let undetermined := (setups.filter (fun s => s.result == "UNDETERMINED")).length
    let total_evaluated := wins + losses
    let win_rate : ℚ :=
      if 0 < total_evaluated then (wins : ℚ) / (total_evaluated : ℚ) * 100 else 0
    ⟨setups.length, win_rate, wins, losses, undetermined⟩

/-- bollinger_bands from src/setup2/pattern_file2.py: raises ValueError
below period candles (modelled by none); otherwise pandas
rolling(period).mean() and rolling(period).std() at the last index, with
the pandas default ddof = 1 — the SAMPLE standard deviation, dividing the
sum of squared deviations by period - 1.  Square roots of rationals are
irrational in general, so the band is represented exactly by the pair
(rolling mean, std_dev^2 times the sample variance): the source's upper and
lower bands are the mean plus and minus the square root of the second
component, and since the square root is strictly monotone on nonnegatives
the pair determines the bands and vice versa. -/
def bollinger_bands (closes : List ℚ) (period : ℕ) (std_dev : ℚ) : Option (ℚ × ℚ) :=
  if closes.length < period then none
  else
    let window := closes.drop (closes.length - period)
    let m := window.sum / (period : ℚ)
    let varSample := (window.map (fun x => (x - m) ^ 2)).sum / ((period : ℚ) - 1)
    some (m, std_dev ^ 2 * varSample)

/-- Modelled from the spec: the Bollinger band the specification describes,
rolling mean with std_dev times the rolling POPULATION standard deviation
(sum of squared deviations divided by period), in the same squared
representation as bollinger_bands, for comparison with the source. -/
def bollinger_bands_population (closes : List ℚ) (period : ℕ) (std_dev : ℚ) :
    Option (ℚ × ℚ) :=
  if closes.length < period then none
  else
    let window := closes.drop (closes.length - period)
    let m := window.sum / (period : ℚ)
    let varPop := (window.map (fun x => (x - m) ^ 2)).sum / (period : ℚ)
    some (m, std_dev ^ 2 * varPop)

/-- A degenerate candle at price q, for concrete test inputs. -/
def mk (q : ℚ) : Candle := ⟨0, q, q, q, q⟩

/-- A sample configuration with the usual threshold values. -/
def cfgEx : Cfg := ⟨3, 15, 30, 70⟩

/-- The hammer test vector of the specification: open 1.1000, close 1.1010,
low 1.0950, high 1.1015. -/
def hammerVec : Candle := ⟨0, 1.1000, 1.1015, 1.0950, 1.1010⟩

/-- Fourteen candles whose closes alternate 1, 2, ..., 2: a series of length
exactly 14 with both gains and losses in the RSI window. -/
def altCandles : List Candle :=
  [mk 1, mk 2, mk 1, mk 2, mk 1, mk 2, mk 1, mk 2, mk 1, mk 2, mk 1, mk 2, mk 1, mk 2]

/-- Fourteen identical candles: a series of length exactly 14 with all
differences zero, the degenerate 0/0 case of the RSI. -/
def constCandles : List Candle :=
  [mk 1, mk 1, mk 1, mk 1, mk 1, mk 1, mk 1, mk 1, mk 1, mk 1, mk 1, mk 1, mk 1, mk 1]

/-- C4: soft defaults on short input.  Below lookback candles
find_support_resistance_levels returns two empty level arrays and
triple_touch returns (false, false); hammer and shooting_star are false on
the empty slice; below period candles rsi returns the neutral 50.  In the
embedding every function is total, which reflects that none of these paths
raises in the source. -/
theorem short_input_soft_defaults (df : List Candle) (symbol : String)
    (touches : ℕ) (window : ℚ) (lookback period : ℕ) :
    (df.length < lookback →
      find_support_resistance_levels df symbol window lookback = ([], []) ∧
      triple_touch df symbol touches window lookback = (false, false)) ∧
    hammer [] = false ∧
    shooting_star [] = false ∧
    (df.length < period → rsi df period = some 50) := by
  refine ⟨fun h => ⟨?_, ?_⟩, by decide, by decide, fun h => ?_⟩
  · simp [find_support_resistance_levels, h]
  · simp [triple_touch, h]
  · simp [rsi, h]

/-- Witness for short_input_soft_defaults: a one-candle series is below the
default lookback 100 and the default period 14, and the neutral values come
out. -/
theorem short_input_soft_defaults_witness :
    ([mk 1] : List Candle).length < 100 ∧ ([mk 1] : List Candle).length < 14 ∧
    find_support_resistance_levels [mk 1] "EURUSD" 15 100 = ([], []) ∧
    triple_touch [mk 1] "EURUSD" 3 15 100 = (false, false) ∧
    rsi [mk 1] 14 = some 50 :=
  ⟨by decide, by decide,
   ((short_input_soft_defaults [mk 1] "EURUSD" 3 15 100 14).1 (by decide)).1,
   ((short_input_soft_defaults [mk 1] "EURUSD" 3 15 100 14).1 (by decide)).2,
   (short_input_soft_defaults [mk 1] "EURUSD" 3 15 100 14).2.2.2 (by decide)⟩

/-- C5, counterexample: the specification's hammer test vector (open 1.1000,
close 1.1010, low 1.0950, high 1.1015) is NOT accepted by both shadow-ratio
variants: its upper shadow 0.0005 equals exactly half the body 0.0010, so
the strict comparison upper_shadow < 0.5 * body of src/patterns.py fails. -/
theorem hammer_vector_not_both :
    ¬(hammerAlt [hammerVec] = true ∧ hammer [hammerVec] = true) := by decide

/-- C5, amended: the test vector is a hammer under the upper_shadow < body
variant (src/pattern.py) but is rejected by the upper_shadow < 0.5 * body
variant (src/patterns.py), because the upper shadow equals exactly half the
body and the comparison is strict. -/
theorem hammer_vector_variants :
    hammerAlt [hammerVec] = true ∧ hammer [hammerVec] = false ∧
    hammerVec.high - max hammerVec.close hammerVec.open_ =
      |hammerVec.close - hammerVec.open_| * (1 / 2) := by decide

/-- C6: the clustering sweep merges an extremum into the current cluster
iff it is within tolerance of the cluster's last-added member, emitting the
arithmetic mean of each closed cluster; on the extrema 1.1000, 1.1002,
1.1050 with tolerance pip_size(EURUSD) * 5 = 0.0005 this produces exactly
the two clusters 1.1001 (the mean of the first two) and 1.1050. -/
theorem cluster_levels_sweep_example :
    (∀ (pips p : ℚ) (cur rest : List ℚ),
      clusterSweep pips cur (p :: rest) =
        if p - cur.getLastD 0 ≤ pips then clusterSweep pips (cur ++ [p]) rest
        else listMean cur :: clusterSweep pips [p] rest) ∧
    cluster_levels (pip_size "EURUSD" * 5) [1.1000, 1.1002, 1.1050] = [1.1001, 1.1050] ∧
    pip_size "EURUSD" * 5 = 5 / 10000 :=
  ⟨fun _ _ _ _ => rfl, by decide, by decide⟩

/-- C7, counterexample: on closes 0, 1, 2 with period 3 and std_dev 2 the
source band differs from the band the specification describes: the pandas
rolling std uses ddof = 1 (sample standard deviation, squared half-width
2^2 * 1 = 4), not the population standard deviation (squared half-width
2^2 * 2/3 = 8/3). -/
theorem bollinger_bands_sample_ne_population :
    bollinger_bands [0, 1, 2] 3 2 ≠ bollinger_bands_population [0, 1, 2] 3 2 := by decide

/-- C7, amended: bollinger_bands fails (raises ValueError, modelled none)
exactly when fewer than period candles exist, and otherwise returns the
rolling mean with std_dev times the rolling SAMPLE standard deviation
(pandas default ddof = 1), not the population one: at closes 0, 1, 2 with
period 3 and std_dev 2 the squared half-width is 4 where the population
variant would give 8/3. -/
theorem bollinger_bands_contract (closes : List ℚ) (period : ℕ) (std_dev : ℚ) :
    (bollinger_bands closes period std_dev = none ↔ closes.length < period) ∧
    bollinger_bands [0, 1, 2] 3 2 = some (1, 4) ∧
    bollinger_bands_population [0, 1, 2] 3 2 = some (1, 8 / 3) := by
  refine ⟨?_, by decide, by decide⟩
  by_cases h : closes.length < period
  · simp [bollinger_bands, h]
  · simp [bollinger_bands, h]

/-- C10, counterexample: a series of length exactly the period 14 whose
closes alternate 1, 2 has a numeric RSI, 700/13, not NaN and not the
neutral 50: the undefined first difference is masked to 0 by
where(delta > 0, 0) before the rolling means are taken, so no NaN reaches
the final value. -/
theorem rsi_at_exactly_period_is_numeric :
    altCandles.length = 14 ∧ rsi altCandles 14 = some (700 / 13) ∧
    rsi altCandles 14 ≠ none ∧ rsi altCandles 14 ≠ some 50 := by decide

/-- C10, amended: the neutral 50 applies exactly when the length is
strictly below period; at length exactly period the RSI is already numeric
in general (700/13 on the alternating series) because the first-difference
NaN is masked to zero gain and zero loss, and NaN (none) arises only in
the degenerate case of a window with neither gains nor losses, e.g. 14
identical closes; whenever the RSI is NaN both threshold comparisons are
false, so no signal fires. -/
theorem rsi_period_boundary (df : List Candle) (period : ℕ) (oversold overbought : ℚ) :
    (df.length < period → rsi df period = some 50) ∧
    (rsi df period = none →
      rsiLt (rsi df period) oversold = false ∧ rsiGt (rsi df period) overbought = false) ∧
    rsi altCandles 14 = some (700 / 13) ∧ rsi constCandles 14 = none := by
  refine ⟨fun h => by simp [rsi, h], fun h => ⟨by rw [h]; rfl, by rw [h]; rfl⟩,
    by decide, by decide⟩

/-- C2: for a signal direction CALL or PUT, the evaluator returns
UNDETERMINED exactly when the expiry candle (offset 4 in the 15-minute
pipeline, offset 2 in the 10-minute pipeline) is past the end of the
series; otherwise, with entry the open at index + 1 and expiry the open at
the expiry offset, it returns WIN exactly for a CALL with expiry strictly
above entry or a PUT with expiry strictly below entry, and equal entry and
expiry prices give LOSS for both directions. -/
theorem check_setup_result_outcome (df : List Candle) (i : ℕ) (sig : String)
    (hsig : sig = "CALL" ∨ sig = "PUT") :
    (check_setup_result df i sig = "UNDETERMINED" ↔ df.length ≤ i + 4) ∧
    (i + 4 < df.length →
      ((check_setup_result df i sig = "WIN" ↔
          (sig = "CALL" ∧ (df.getD (i + 1) default).open_ < (df.getD (i + 4) default).open_) ∨
          (sig = "PUT" ∧ (df.getD (i + 4) default).open_ < (df.getD (i + 1) default).open_)) ∧
        ((df.getD (i + 4) default).open_ = (df.getD (i + 1) default).open_ →
          check_setup_result df i sig = "LOSS"))) ∧
    (check_setup_result_10 df i sig = "UNDETERMINED" ↔ df.length ≤ i + 2) ∧
    (i + 2 < df.length →
      ((check_setup_result_10 df i sig = "WIN" ↔
          (sig = "CALL" ∧ (df.getD (i + 1) default).open_ < (df.getD (i + 2) default).open_) ∨
          (sig = "PUT" ∧ (df.getD (i + 2) default).open_ < (df.getD (i + 1) default).open_)) ∧
        ((df.getD (i + 2) default).open_ = (df.getD (i + 1) default).open_ →
          check_setup_result_10 df i sig = "LOSS"))) := by
  refine ⟨?_, fun hlt => ⟨?_, fun he => ?_⟩, ?_, fun hlt => ⟨?_, fun he => ?_⟩⟩
  · by_cases hlen : df.length ≤ i + 4
    · simp [check_setup_result, hlen]
    · rcases hsig with h | h <;> subst h <;> simp [check_setup_result, hlen] <;>
        split_ifs <;> decide
  · have hlen : ¬ df.length ≤ i + 4 := by omega
    rcases hsig with h | h <;> subst h
    · by_cases hw : (df.getD (i + 1) default).open_ < (df.getD (i + 4) default).open_ <;>
        simp [check_setup_result, hlen, hw]
    · by_cases hw : (df.getD (i + 4) default).open_ < (df.getD (i + 1) default).open_ <;>
        simp [check_setup_result, hlen, hw]
  · have hlen : ¬ df.length ≤ i + 4 := by omega
    simp only [List.getD, List.get?_eq_getElem?] at he
    rcases hsig with h | h <;> subst h <;> simp [check_setup_result, hlen, he]
  · by_cases hlen : df.length ≤ i + 2
    · simp [check_setup_result_10, hlen]
    · rcases hsig with h | h <;> subst h <;> simp [check_setup_result_10, hlen] <;>
        split_ifs <;> decide
  · have hlen : ¬ df.length ≤ i + 2 := by omega
    rcases hsig with h | h <;> subst h
    · by_cases hw : (df.getD (i + 1) default).open_ < (df.getD (i + 2) default).open_ <;>
        simp [check_setup_result_10, hlen, hw]
    · by_cases hw : (df.getD (i + 2) default).open_ < (df.getD (i + 1) default).open_ <;>
        simp [check_setup_result_10, hlen, hw]
  · have hlen : ¬ df.length ≤ i + 2 := by omega
    simp only [List.getD, List.get?_eq_getElem?] at he
    rcases hsig with h | h <;> subst h <;> simp [check_setup_result_10, hlen, he]

/-- A five-candle series whose last open differs from the entry open:
concrete input for the evaluator witness. -/
def dfFive : List Candle := [mk 1, mk 1, mk 1, mk 1, mk 2]

/-- Witness for check_setup_result_outcome: at the concrete five-candle
series with signal CALL at index 0 the hypothesis holds and the
UNDETERMINED characterisation is obtained. -/
theorem check_setup_result_outcome_witness :
    (("CALL" : String) = "CALL" ∨ ("CALL" : String) = "PUT") ∧
    (check_setup_result dfFive 0 "CALL" = "UNDETERMINED" ↔ dfFive.length ≤ 0 + 4) :=
  ⟨Or.inl rfl, (check_setup_result_outcome dfFive 0 "CALL" (Or.inl rfl)).1⟩

/-- C3: the CALL guard and the PUT guard of the confirmation-mode signal
engine are never both true, because the bullish and bearish direction
checks on candle B (close strictly above respectively strictly below open)
are mutually exclusive; and get_signal, which tests the CALL guard first,
returns CALL, PUT or no signal, never anything else. -/
theorem call_put_mutually_exclusive (candleA candleB : List Candle)
    (symbol : String) (cfg : Cfg) (df : List Candle) (B : ℕ) :
    (callCond candleA candleB symbol cfg && putCond candleA candleB symbol cfg) = false ∧
    ((get_signal df symbol cfg B).1 = some "CALL" ∨
     (get_signal df symbol cfg B).1 = some "PUT" ∨
     (get_signal df symbol cfg B).1 = none) := by
  constructor
  · by_cases h : (candleB.getLastD default).open_ < (candleB.getLastD default).close
    · have hbear : directionBear candleB = false := by
        simp only [directionBear, decide_eq_false_iff_not]
        exact asymm h
      simp [putCond, hbear]
    · have hbull : directionBull candleB = false := by
        simp only [directionBull, decide_eq_false_iff_not]
        exact h
      simp [callCond, hbull]
  · unfold get_signal gsCore
    split_ifs <;> simp

/-- C1: look-ahead safety of the confirmation-mode signal engine.  For a
valid index B (1 at most B, B below the length), get_signal computes every
touch, RSI and pattern flag on the slice of candles strictly before B and
the direction check on the slice up to and including B, so any two series
agreeing on indices 0..B produce the same (signal, condition set),
whatever candles follow. -/
theorem get_signal_lookahead_safe (df1 df2 : List Candle) (symbol : String) (cfg : Cfg)
    (B : ℕ) (h1 : 1 ≤ B) (h2 : B < df1.length)
    (h3 : df1.take (B + 1) = df2.take (B + 1)) :
    get_signal df1 symbol cfg B = get_signal df2 symbol cfg B := by
  have hlen2 : B < df2.length := by
    have e2 := congrArg List.length h3
    rw [List.length_take, List.length_take] at e2
    omega
  have hA : df1.take B = df2.take B := by
    have t1 : (df1.take (B + 1)).take B = df1.take B := by
      rw [List.take_take]
      congr 1
      omega
    have t2 : (df2.take (B + 1)).take B = df2.take B := by
      rw [List.take_take]
      congr 1
      omega
    rw [← t1, h3, t2]
  unfold get_signal
  rw [if_neg (by omega), if_neg (by omega), hA, h3]

/-- Witness for get_signal_lookahead_safe: two concrete series agreeing on
indices 0..1, one of which has an extra trailing candle, give the same
signal at index 1. -/
theorem get_signal_lookahead_safe_witness :
    1 ≤ 1 ∧ 1 < ([mk 1, mk 2] : List Candle).length ∧
    ([mk 1, mk 2] : List Candle).take 2 = ([mk 1, mk 2, mk 3] : List Candle).take 2 ∧
    get_signal [mk 1, mk 2] "EURUSD" cfgEx 1 = get_signal [mk 1, mk 2, mk 3] "EURUSD" cfgEx 1 :=
  ⟨le_refl 1, by decide, rfl,
   get_signal_lookahead_safe [mk 1, mk 2] [mk 1, mk 2, mk 3] "EURUSD" cfgEx 1
     (le_refl 1) (by decide) rfl⟩

/-- On a nonempty record list, calculate_stats takes the counting branch;
the equation spelt out, holding by unfolding. -/
theorem calculate_stats_cons (a : SetupRecord) (l : List SetupRecord) :
    calculate_stats (a :: l) =
      ⟨(a :: l).length,
       if 0 < ((a :: l).filter (fun s => s.result == "WIN")).length +
           ((a :: l).filter (fun s => s.result == "LOSS")).length then
         ((((a :: l).filter (fun s => s.result == "WIN")).length : ℚ) /
           ((((a :: l).filter (fun s => s.result == "WIN")).length +
             ((a :: l).filter (fun s => s.result == "LOSS")).length : ℕ) : ℚ)) * 100
       else 0,
       ((a :: l).filter (fun s => s.result == "WIN")).length,
       ((a :: l).filter (fun s => s.result == "LOSS")).length,
       ((a :: l).filter (fun s => s.result == "UNDETERMINED")).length⟩ := rfl

/-- The six-record example of the specification: 3 WIN, 2 LOSS,
1 UNDETERMINED. -/
def statsExample : List SetupRecord :=
  [⟨0, "EURUSD", "CALL", "WIN", 1, 2, none⟩,
   ⟨0, "EURUSD", "CALL", "WIN", 1, 2, none⟩,
   ⟨0, "EURUSD", "CALL", "WIN", 1, 2, none⟩,
   ⟨0, "EURUSD", "PUT", "LOSS", 1, 2, none⟩,
   ⟨0, "EURUSD", "PUT", "LOSS", 1, 2, none⟩,
   ⟨0, "EURUSD", "CALL", "UNDETERMINED", 1, 2, none⟩]

/-- C8: calculate_stats returns total equal to the number of records, wins,
losses and undetermined counted by result, and the win rate
wins / (wins + losses) * 100 when any record was determined and 0
otherwise, so UNDETERMINED records count in the total but not in the
denominator; on 3 WIN, 2 LOSS, 1 UNDETERMINED it gives win rate 60 and
total 6. -/
theorem calculate_stats_spec (setups : List SetupRecord) :
    (calculate_stats setups).total_setups = setups.length ∧
    (calculate_stats setups).wins = (setups.filter (fun s => s.result == "WIN")).length ∧
    (calculate_stats setups).losses = (setups.filter (fun s => s.result == "LOSS")).length ∧
    (calculate_stats setups).undetermined =
      (setups.filter (fun s => s.result == "UNDETERMINED")).length ∧
    (0 < (calculate_stats setups).wins + (calculate_stats setups).losses →
      (calculate_stats setups).win_rate =
        ((calculate_stats setups).wins : ℚ) /
          (((calculate_stats setups).wins : ℚ) + ((calculate_stats setups).losses : ℚ)) * 100) ∧
    ((calculate_stats setups).wins + (calculate_stats setups).losses = 0 →
      (calculate_stats setups).win_rate = 0) ∧
    calculate_stats statsExample = ⟨6, 60, 3, 2, 1⟩ := by
  cases setups with
  | nil =>
    exact ⟨rfl, rfl, rfl, rfl, fun h => absurd h (by decide), fun _ => rfl, by decide⟩
  | cons a l =>
    rw [calculate_stats_cons]
    refine ⟨rfl, rfl, rfl, rfl, ?_, ?_, by decide⟩
    · intro h
      simp only at h ⊢
      rw [if_pos h]
      push_cast
      ring
    · intro h
      simp only at h ⊢
      rw [if_neg (by omega)]

/-- Witness for calculate_stats_spec at the six-record example: the
determined count is positive and the win-rate equation holds there. -/
theorem calculate_stats_spec_witness :
    0 < (calculate_stats statsExample).wins + (calculate_stats statsExample).losses ∧
    (calculate_stats statsExample).win_rate =
      ((calculate_stats statsExample).wins : ℚ) /
        (((calculate_stats statsExample).wins : ℚ) +
          ((calculate_stats statsExample).losses : ℚ)) * 100 :=
  ⟨by decide, (calculate_stats_spec statsExample).2.2.2.2.1 (by decide)⟩

/-- When get_signal fires, the signal is the string CALL or the string PUT. -/
theorem get_signal_fired (df : List Candle) (symbol : String) (cfg : Cfg) (i : ℕ)
    (sig : String) (info : Option CondInfo)
    (h : get_signal df symbol cfg i = (some sig, info)) :
    sig = "CALL" ∨ sig = "PUT" := by
  unfold get_signal gsCore at h
  split_ifs at h <;> simp_all

/-- With the expiry candle in range and a CALL or PUT signal, the
15-minute evaluator returns WIN or LOSS, never UNDETERMINED. -/
theorem check_setup_result_determined (df : List Candle) (i : ℕ) (sig : String)
    (hlen : i + 4 < df.length) (hsig : sig = "CALL" ∨ sig = "PUT") :
    check_setup_result df i sig ≠ "UNDETERMINED" := by
  rcases hsig with h | h <;> subst h <;>
    simp [check_setup_result, Nat.not_le_of_lt hlen] <;> split_ifs <;> decide

/-- Loop invariant for analyzeLoop: a successful scan contains no
UNDETERMINED record, because a record is only built after both future
opens were read in bounds, and in bounds the evaluator is determined. -/
theorem analyzeLoop_no_undetermined (df : List Candle) (symbol : String) (cfg : Cfg) :
    ∀ (idxs : List ℕ) (out : List SetupRecord),
      analyzeLoop df symbol cfg idxs = some out →
      ∀ r ∈ out, r.result ≠ "UNDETERMINED" := by
  intro idxs
  induction idxs with
  | nil =>
    intro out h r hr
    simp only [analyzeLoop, Option.some.injEq] at h
    subst h
    simp only [List.not_mem_nil] at hr
  | cons i rest ih =>
    intro out h r hr
    simp only [analyzeLoop] at h
    split at h
    · exact ih out h r hr
    · next sig conditions heq =>
      split at h
      · next candleC candleF hc hf =>
        rcases hmap : analyzeLoop df symbol cfg rest with _ | rs
        · rw [hmap] at h
          simp at h
        · rw [hmap] at h
          simp only [Option.map_some', Option.some.injEq] at h
          subst h
          rcases List.mem_cons.mp hr with rfl | hmem
          · have hne : df.get? (i + 4) ≠ none := by
              rw [hf]
              simp
            have hlt : i + 4 < df.length := by
              by_contra hge
              exact hne (List.get?_eq_none.mpr (by omega))
            exact check_setup_result_determined df i sig hlt
              (get_signal_fired df symbol cfg i sig conditions heq)
          · exact ih rs hmap r hmem
      · next hcf =>
        exact absurd h (by simp)

/-- Loop invariant for analyzeLoop: if some scanned index fires while its
expiry candle is past the end of the series, the scan aborts with the
modelled IndexError. -/
theorem analyzeLoop_aborts (df : List Candle) (symbol : String) (cfg : Cfg) (i : ℕ)
    (hfar : df.length ≤ i + 4) (hfire : (get_signal df symbol cfg i).1.isSome = true) :
    ∀ idxs : List ℕ, i ∈ idxs → analyzeLoop df symbol cfg idxs = none := by
  have hfail : df.get? (i + 4) = none := List.get?_eq_none.mpr hfar
  intro idxs
  induction idxs with
  | nil =>
    intro hmem
    simp at hmem
  | cons j rest ih =>
    intro hmem
    by_cases hij : i = j
    · subst hij
      rcases hgs : get_signal df symbol cfg i with ⟨osig, oinfo⟩
      cases osig with
      | none =>
        rw [hgs] at hfire
        simp at hfire
      | some sig =>
        simp only [analyzeLoop]
        rw [hgs]
        rcases hc : df.get? (i + 1) with _ | candleC
        · rfl
        · rw [hfail]
    · have hmem' : i ∈ rest := by
        rcases List.mem_cons.mp hmem with h' | h'
        · exact absurd h' hij
        · exact h'
      simp only [analyzeLoop]
      rcases hgs : get_signal df symbol cfg j with ⟨osig, oinfo⟩
      cases osig with
      | none => exact ih hmem'
      | some sig =>
        rcases hc : df.get? (j + 1) with _ | candleC
        · rfl
        · rcases hf : df.get? (j + 4) with _ | candleF
          · rfl
          · rw [ih hmem']
            rfl

/-- C9: the backtest driver of src/backtest.py crashes instead of recording
UNDETERMINED.  A successful run of analyze_setups contains no UNDETERMINED
record, because the record construction reads the opens at indices i + 1
and i + 4 unconditionally, and whenever a signal fires at an index whose
expiry candle i + 4 is past the end of the series — exactly the condition
under which check_setup_result returns UNDETERMINED — the run aborts with
the out-of-bounds read (modelled none) before the record is appended. -/
theorem analyze_setups_no_undetermined (df : List Candle) (symbol : String) (cfg : Cfg) :
    (∀ out, analyze_setups df symbol cfg = some out →
      out.all (fun r => r.result != "UNDETERMINED") = true) ∧
    (∀ i, 51 ≤ i → i < df.length → df.length ≤ i + 4 →
      (get_signal df symbol cfg i).1.isSome = true →
      analyze_setups df symbol cfg = none) := by
  constructor
  · intro out h
    rw [List.all_eq_true]
    intro r hr
    have hne := analyzeLoop_no_undetermined df symbol cfg _ out h r hr
    simpa [bne_iff_ne] using hne
  · intro i h51 hlt hfar hfire
    refine analyzeLoop_aborts df symbol cfg i hfar hfire _ ?_
    rw [List.mem_range'_1]
    omega

/-- Witness for analyze_setups_no_undetermined: the empty series scans no
index, succeeds with an empty record list, which trivially contains no
UNDETERMINED record. -/
theorem analyze_setups_no_undetermined_witness :
    analyze_setups [] "EURUSD" cfgEx = some [] ∧
    ([] : List SetupRecord).all (fun r => r.result != "UNDETERMINED") = true :=
  ⟨by decide, (analyze_setups_no_undetermined [] "EURUSD" cfgEx).1 [] (by decide)⟩

/-- Witness for rsi_period_boundary: one candle is below period 14 and gets
the neutral 50; fourteen identical candles give the NaN case, where both
threshold comparisons are false. -/
theorem rsi_period_boundary_witness :
    ([mk 1] : List Candle).length < 14 ∧ rsi [mk 1] 14 = some 50 ∧
    rsi constCandles 14 = none ∧
    rsiLt (rsi constCandles 14) 30 = false ∧ rsiGt (rsi constCandles 14) 70 = false :=
  ⟨by decide, (rsi_period_boundary [mk 1] 14 30 70).1 (by decide), by decide,
   ((rsi_period_boundary constCandles 14 30 70).2.1 (by decide)).1,
   ((rsi_period_boundary constCandles 14 30 70).2.1 (by decide)).2⟩

end RealFx
